import Mathlib

/-!
Shallow embedding of the Simplicity A/C firmware control logic
(`simplicity-ac-firmware.ino` and the `threadkernel` cooperative scheduler).

Temperatures are modelled as rationals: every float constant appearing in the
control code (1.5, 0.5, 0.1, 12.0, ...) is exactly representable, and the code
only compares, adds, subtracts and takes min/max of them, so the rational
model agrees with IEEE float evaluation on all non-NaN inputs.  The sentinel
`INVALID_TEMP` is `FLT_MIN`, the smallest positive normalised float `2^-126`.
Stateful C code is modelled by explicit state passing: each global a function
reads or writes becomes an argument or a component of the result.
-/

namespace SimplicityAC

/-- External command to the unit (`ac_cmd_t`). -/
inductive AcCmd
  | cmdOff
  | cmdCoolHigh
  | cmdCoolMed
  | cmdCoolLow
  | cmdKill
  | cmdFan
  deriving DecidableEq

/-- High-level A/C state (`ac_state_t`). -/
inductive AcState
  | powerOff
  | coolHigh
  | coolMed
  | coolLow
  | standbyHigh
  | standbyMed
  | standbyLow
  deriving DecidableEq

/-- Compressor state (`compressor_state_t`). -/
inductive CompressorState
  | off
  | on
  deriving DecidableEq

/-- The two monitored temperature channels, `TEMPERATURES_C[EVAP_IDX]` and
`TEMPERATURES_C[OUTLET_IDX]`. -/
structure Temps where
  evap : ℚ
  outlet : ℚ
  deriving DecidableEq

/-- `isEvaporatorInSafeTempRange`: reads the global `compressorState` (here a
parameter) and the two temperature channels.  With the compressor ON the
check is `evap > 12.0 && outlet > 0.5`; with it OFF, `evap > 14.0 && outlet > 5.0`. -/
def isEvaporatorInSafeTempRange (compressorState : CompressorState) (t : Temps) : Bool :=
  match compressorState with
  | .on  => decide (t.evap > 12) && decide (t.outlet > 1/2)
  | .off => decide (t.evap > 14) && decide (t.outlet > 5)

/-- `calculateOnTemp`: clamps the configured on-threshold.  The global read
`TEMPERATURES_C[EVAP_IDX]` is passed as `evapTempC`; `fmin`/`fmax` become
`min`/`max` on ℚ. -/
def calculateOnTemp (evapTempC stateOffTempC stateOnTempC minRangeC minEvapDeltaC
    maxEvapDeltaC : ℚ) : ℚ :=
  let maxOnTempC := min (evapTempC - minEvapDeltaC) stateOnTempC
  let minOnTempC := max (evapTempC - maxEvapDeltaC) (stateOffTempC + minRangeC)
  if maxOnTempC > minOnTempC then maxOnTempC else minOnTempC

/-- `controlCompressorState`: ON and `outlet <= offTempC` or unsafe turns the
compressor off; OFF and `outlet >= onTempC` and safe turns it on.  The global
`compressorState` read by `isEvaporatorInSafeTempRange` equals the branch's
state. -/
def controlCompressorState (compressorState : CompressorState) (t : Temps)
    (offTempC onTempC : ℚ) : CompressorState :=
  match compressorState with
  | .on  =>
    if t.outlet ≤ offTempC ∨ isEvaporatorInSafeTempRange .on t = false then .off else .on
  | .off =>
    if t.outlet ≥ onTempC ∧ isEvaporatorInSafeTempRange .off t = true then .on else .off

/-- Compressor effect of `changeState` for a given target state: the
`STANDBY_*` and `POWER_OFF` targets call `setCompressor(COMPRESSOR_OFF)`;
the `COOL_*` targets only set the fan and leave the compressor alone. -/
def changeStateCompressor (targetState : AcState)
    (compressorState : CompressorState) : CompressorState :=
  match targetState with
  | .coolHigh | .coolMed | .coolLow => compressorState
  | _ => .off

/-- The on-threshold computed for `CMD_COOL_HIGH`:
`calculateOnTemp(COOL_HIGH_OFF_TEMP_C, COOL_HIGH_ON_TEMP_C, 5.0, 5.0, 8.0)`
with `COOL_HIGH_OFF_TEMP_C = 1.5`, `COOL_HIGH_ON_TEMP_C = 6`. -/
def coolHighOnThreshold (t : Temps) : ℚ := calculateOnTemp t.evap (3/2) 6 5 5 8

/-- The on-threshold computed for `CMD_COOL_MED`:
`calculateOnTemp(COOL_MED_OFF_TEMP_C, COOL_MED_ON_TEMP_C, 5.0, 2.0, 7.0)`
with `COOL_MED_OFF_TEMP_C = 5`, `COOL_MED_ON_TEMP_C = 12`. -/
def coolMedOnThreshold (t : Temps) : ℚ := calculateOnTemp t.evap 5 12 5 2 7

/-- The on-threshold computed for `CMD_COOL_LOW`:
`calculateOnTemp(COOL_LOW_OFF_TEMP_C, COOL_LOW_ON_TEMP_C, 5.0, 1.0, 5.0)`
with `COOL_LOW_OFF_TEMP_C = 8`, `COOL_LOW_ON_TEMP_C = 17`. -/
def coolLowOnThreshold (t : Temps) : ℚ := calculateOnTemp t.evap 8 17 5 1 5

/-- `processCommand` together with the compressor side effects of the
functions it calls (`controlCompressorState` in the matching COOL branch,
`setCompressor(COMPRESSOR_OFF)` inside `changeState` when the state actually
changes).  `elapsedStateTimeMs` is `millis() - lastStateChangeTimeMs` (a C
`long`).  Returns the new `(state, compressorState)` pair. -/
def processCommand (currentState : AcState) (compressorState : CompressorState)
    (t : Temps) (command : AcCmd) (elapsedStateTimeMs : ℤ) : AcState × CompressorState :=
  let p : AcState × CompressorState :=
    match command with
    | .cmdCoolHigh =>
      match currentState with
      | .standbyHigh => (.coolHigh, compressorState)
      | .coolHigh =>
        (.coolHigh, controlCompressorState compressorState t (3/2) (coolHighOnThreshold t))
      | _ => (.standbyHigh, compressorState)
    | .cmdCoolMed =>
      match currentState with
      | .standbyMed => (.coolMed, compressorState)
      | .coolMed =>
        (.coolMed, controlCompressorState compressorState t 5 (coolMedOnThreshold t))
      | _ => (.standbyMed, compressorState)
    | .cmdCoolLow =>
      match currentState with
      | .standbyLow => (.coolLow, compressorState)
      | .coolLow =>
        (.coolLow, controlCompressorState compressorState t 8 (coolLowOnThreshold t))
      | _ => (.standbyLow, compressorState)
    | .cmdOff =>
      match currentState with
      | .coolHigh => (.standbyHigh, compressorState)
      | .coolMed  => (.standbyMed, compressorState)
      | .coolLow  => (.standbyLow, compressorState)
      | .standbyHigh =>
        (if elapsedStateTimeMs > 60000 then .standbyMed else .standbyHigh, compressorState)
      | .standbyMed =>
        (if elapsedStateTimeMs > 300000 then .standbyLow else .standbyMed, compressorState)
      | .standbyLow =>
        (if elapsedStateTimeMs > 900000 then .powerOff else .standbyLow, compressorState)
      | .powerOff => (.powerOff, compressorState)
    | .cmdKill =>
      match currentState with
      | .coolHigh => (.standbyHigh, compressorState)
      | .coolMed  => (.standbyMed, compressorState)
      | .coolLow  => (.standbyLow, compressorState)
      | _ => (.powerOff, compressorState)
    | .cmdFan => (.standbyHigh, compressorState)
  if p.1 ≠ currentState then (p.1, changeStateCompressor p.1 p.2) else p

/-- Command-ingress handler: the `switch(arg.charAt(0))` inside the
`server.on("/")` lambda, applied when a one-character `cmd` request argument
arrives.  `cur` is the stored `command` before the request; the handler
assigns a new value in every branch, including the `default`, which assigns
`CMD_OFF`. -/
def handleCmdChar (c : Char) (cur : AcCmd) : AcCmd :=
  match cur, c with
  | _, 'O' => .cmdOff
  | _, 'C' => .cmdCoolHigh
  | _, 'H' => .cmdCoolHigh
  | _, 'M' => .cmdCoolMed
  | _, 'L' => .cmdCoolLow
  | _, 'K' => .cmdKill
  | _, 'F' => .cmdFan
  | _, _ => .cmdOff

/-- The recognized single-character command codes of the ingress handler. -/
def recognizedCmdChars : List Char := ['O', 'C', 'H', 'M', 'L', 'K', 'F']

/-- `INVALID_TEMP = FLT_MIN`, the smallest positive normalised float. -/
def INVALID_TEMP : ℚ := 1 / 2 ^ 126

/-- `isTempCValid`: the sample plausibility test.  The source also tests
`tempC == tempC` (the NaN self-test), which holds of every rational, so the
model keeps the remaining three conjuncts; `MAX_TEMP_C = 60.0`,
`MIN_TEMP_C = -40.0`. -/
def isTempCValid (tempC : ℚ) : Bool :=
  decide (tempC ≠ INVALID_TEMP) && decide (tempC < 60) && decide (tempC > -40)

/-- One sensor visited by `ds.selectNext()` in a read pass: the low address
byte `sensorAddress[7]` and the two back-to-back raw samples returned by the
two `ds.getTempC()` calls. -/
structure SensorSample where
  addr : ℕ
  reading1C : ℚ
  reading2C : ℚ
  deriving DecidableEq

/-- The acceptance test of the sensor loop: the two samples agree within 0.1
(`fabs(reading1C - reading2C) < 0.1`) and the first is plausible. -/
def acceptSample (s : SensorSample) : Bool :=
  decide (|s.reading1C - s.reading2C| < 1/10) && isTempCValid s.reading1C

/-- The `while (ds.selectNext())` loop of `readTemperatures`, folding over the
detected sensors.  The accumulator carries the `newTempC` array (a function
from address byte to value, initialised to `INVALID_TEMP` everywhere) and the
`tempErrors` counter; an accepted sensor records `reading1C` at its address,
a rejected one increments the counter. -/
def readTempsLoop (samples : List SensorSample) (acc : (ℕ → ℚ) × ℕ) : (ℕ → ℚ) × ℕ :=
  samples.foldl
    (fun a s =>
      if acceptSample s then (Function.update a.1 s.addr s.reading1C, a.2) else (a.1, a.2 + 1))
    acc

/-- `readTemperatures`: one full read pass over the bus.  After the sensor
loop, each exposed channel (`TEMP_SENSOR_ADDRESSES = {61, 20}`, evap first)
takes the newly recorded value only when one was recorded
(`newTempC[addr] != INVALID_TEMP`), otherwise it keeps its previous value.
Returns the new exposed channels and the new `tempErrors`. -/
def readTemperaturesPass (samples : List SensorSample) (temps : Temps)
    (tempErrors : ℕ) : Temps × ℕ :=
  let r := readTempsLoop samples (fun _ => INVALID_TEMP, tempErrors)
  (⟨if r.1 61 ≠ INVALID_TEMP then r.1 61 else temps.evap,
    if r.1 20 ≠ INVALID_TEMP then r.1 20 else temps.outlet⟩, r.2)

/-- `TEMP_SENSOR_ADDRESSES[i]`: address byte of channel `i`
(`EVAP_TEMP_ADDR = 61` at `EVAP_IDX = 0`, `OUTLET_TEMP_ADDR = 20` at
`OUTLET_IDX = 1`). -/
def chAddr (i : Fin 2) : ℕ := if i = 0 then 61 else 20

/-- `TEMPERATURES_C[i]`: exposed value of channel `i`. -/
def chTemp (t : Temps) (i : Fin 2) : ℚ := if i = 0 then t.evap else t.outlet

/-- One scheduler task (`process_t`): period, next eligible run time, and a
numeric identifier standing for the function pointer `f`.  The singly linked
list hanging off `threadkernel_t` is modelled as a `List` in head-to-tail
(registration) order. -/
structure Process where
  periodMilliseconds : ℕ
  nextRunMilliseconds : ℕ
  pid : ℕ
  deriving DecidableEq

/-- `__threadkernel_add`: walks to the tail and appends a new process with
`nextRunMilliseconds = 0`. -/
def threadkernel_add (ps : List Process) (pid periodMilliseconds : ℕ) : List Process :=
  ps ++ [⟨periodMilliseconds, 0, pid⟩]

/-- `__threadkernel_run`, starting at the `n`-th `k->millis()` sample of this
invocation: each loop iteration samples the clock once, runs the process if
`timeMilliseconds >= nextRunMilliseconds`, and re-arms it to
`timeMilliseconds + periodMilliseconds`.  `clk m` is the value returned by
the `m`-th clock sample of the invocation; the pids of the processes run are
returned in execution order. -/
def threadkernel_runFrom (clk : ℕ → ℕ) : ℕ → List Process → List Process × List ℕ
  | _, [] => ([], [])
  | n, p :: rest =>
    let timeMilliseconds := clk n
    if p.nextRunMilliseconds ≤ timeMilliseconds then
      let r := threadkernel_runFrom clk (n + 1) rest
      ({ p with nextRunMilliseconds := timeMilliseconds + p.periodMilliseconds } :: r.1,
       p.pid :: r.2)
    else
      let r := threadkernel_runFrom clk (n + 1) rest
      (p :: r.1, r.2)

/-- `__threadkernel_run`: one call of the scheduler's `run` over the whole
process list. -/
def threadkernel_run (clk : ℕ → ℕ) (ps : List Process) : List Process × List ℕ :=
  threadkernel_runFrom clk 0 ps

/-- The mutable state read and written by `task_testPing` and `reboot`:
`consecutiveFailedPings`, `numRebootsPingFailed`, the cumulative powered-time
base `timeBaseMs`, and whether `rp2040.reboot()` was invoked. -/
structure PingState where
  consecutiveFailedPings : ℕ
  numRebootsPingFailed : ℕ
  timeBaseMs : ℕ
  rebootRequested : Bool
  deriving DecidableEq

/-- `reboot()`: advances `timeBaseMs` by `millis()` (the time elapsed since
the current boot, `nowMs`) and then restarts the device. -/
def reboot (nowMs : ℕ) (s : PingState) : PingState :=
  { s with timeBaseMs := s.timeBaseMs + nowMs, rebootRequested := true }

/-- `task_testPing`: `pingOk` is `WiFi.ping(...) >= 0`.  On failure the
consecutive-failure counter is pre-incremented and, once it reaches
`MAX_CONSECUTIVE_FAILED_PINGS = 5`, `numRebootsPingFailed` is incremented and
`reboot()` runs; on success the counter resets to zero.  `nowMs` is the
`millis()` value seen by `reboot`. -/
def task_testPing (pingOk : Bool) (nowMs : ℕ) (s : PingState) : PingState :=
  if pingOk then
    { s with consecutiveFailedPings := 0 }
  else
    let s1 := { s with consecutiveFailedPings := s.consecutiveFailedPings + 1 }
    if s1.consecutiveFailedPings ≥ 5 then
      reboot nowMs { s1 with numRebootsPingFailed := s1.numRebootsPingFailed + 1 }
    else
      s1

/-- The variables placed in the `.uninitialized_data` linker section, which
the RP2040 leaves untouched across a soft restart: the first-boot flag
`initialize` (here `initFlag`, since the original name collides with a Lean
keyword), the counters, and the stored external `command`. -/
structure PersistentState where
  initFlag : ℤ
  timeBaseMs : ℤ
  powerUpTime : ℤ
  tempErrors : ℤ
  numRebootsPingFailed : ℤ
  numRebootsDisconnected : ℤ
  command : AcCmd
  deriving DecidableEq

/-- The `if (initialize) { ... }` guard at the top of `setup()`: when the
flag is nonzero (C truthiness) every persisted variable is reset —
`command = CMD_OFF`, counters zeroed, `powerUpTime = millis()` — and the flag
is cleared; otherwise nothing in the section is written. -/
def setupInitGuard (nowMs : ℤ) (s : PersistentState) : PersistentState :=
  if s.initFlag ≠ 0 then
    { initFlag := 0, timeBaseMs := 0, powerUpTime := nowMs, tempErrors := 0,
      numRebootsPingFailed := 0, numRebootsDisconnected := 0, command := .cmdOff }
  else
    s

/-- Evaporator-channel minimum threshold used by `isEvaporatorInSafeTempRange`
for each compressor mode (12.0 with the compressor ON, 14.0 with it OFF). -/
def evapSafetyThreshold : CompressorState → ℚ
  | .on => 12
  | .off => 14

/-- Outlet-channel minimum threshold used by `isEvaporatorInSafeTempRange`
for each compressor mode (0.5 with the compressor ON, 5.0 with it OFF). -/
def outletSafetyThreshold : CompressorState → ℚ
  | .on => 1/2
  | .off => 5

/-- Modelled from the spec: the safety check as claim C3 words it — "returns
true unless BOTH monitored channels are invalid or below their mode-specific
minimum thresholds" (an invalid channel holds `INVALID_TEMP`, which is below
every threshold, so "invalid or below threshold" is "at or below the
threshold").  Stated only to be compared against the source definition
`isEvaporatorInSafeTempRange`. -/
def isEvaporatorSafeSpecClaim (cs : CompressorState) (t : Temps) : Bool :=
  !(decide (t.evap ≤ evapSafetyThreshold cs) && decide (t.outlet ≤ outletSafetyThreshold cs))

section Lemmas

/-- Peeling one sensor off the fold of the sensor loop. -/
lemma readTempsLoop_cons (s : SensorSample) (rest : List SensorSample) (acc : (ℕ → ℚ) × ℕ) :
    readTempsLoop (s :: rest) acc =
      readTempsLoop rest
        (if acceptSample s then (Function.update acc.1 s.addr s.reading1C, acc.2)
         else (acc.1, acc.2 + 1)) := rfl

/-- The sensor loop increments `tempErrors` once per rejected sensor. -/
lemma readTempsLoop_snd (samples : List SensorSample) (acc : (ℕ → ℚ) × ℕ) :
    (readTempsLoop samples acc).2 = acc.2 + (samples.filter fun s => !acceptSample s).length := by
  induction samples generalizing acc with
  | nil => rfl
  | cons s rest ih =>
    rw [readTempsLoop_cons, ih]
    by_cases hs : acceptSample s = true
    · simp [List.filter_cons, hs]
    · simp [List.filter_cons, hs]
      omega

/-- An address no accepted sensor writes keeps its initial `newTempC` entry. -/
lemma readTempsLoop_fst_apply (samples : List SensorSample) (acc : (ℕ → ℚ) × ℕ) (a : ℕ)
    (h : ∀ s ∈ samples, acceptSample s = true → s.addr ≠ a) :
    (readTempsLoop samples acc).1 a = acc.1 a := by
  induction samples generalizing acc with
  | nil => rfl
  | cons s rest ih =>
    have hrest : ∀ x ∈ rest, acceptSample x = true → x.addr ≠ a :=
      fun x hx => h x (List.mem_cons_of_mem _ hx)
    rw [readTempsLoop_cons]
    by_cases hs : acceptSample s = true
    · rw [if_pos hs, ih _ hrest]
      exact Function.update_noteq (Ne.symm (h s (List.mem_cons_self _ _) hs)) _ _
    · rw [if_neg hs, ih _ hrest]

/-- Executed pids of `__threadkernel_run` starting from the `n`-th clock
sample: exactly the due processes, in list order. -/
lemma threadkernel_runFrom_snd (clk : ℕ → ℕ) (ps : List Process) (n : ℕ) :
    (threadkernel_runFrom clk n ps).2 =
      ((ps.enumFrom n).filter fun ip => decide (ip.2.nextRunMilliseconds ≤ clk ip.1)).map
        fun ip => ip.2.pid := by
  induction ps generalizing n with
  | nil => rfl
  | cons p rest ih =>
    simp only [threadkernel_runFrom, List.enumFrom_cons, List.filter_cons]
    by_cases hp : p.nextRunMilliseconds ≤ clk n <;> simp [hp, ih]

/-- Re-arming of `__threadkernel_run` starting from the `n`-th clock sample:
each due process gets `nextRunMilliseconds = sample + period`, the rest are
untouched. -/
lemma threadkernel_runFrom_fst (clk : ℕ → ℕ) (ps : List Process) (n : ℕ) :
    (threadkernel_runFrom clk n ps).1 =
      (ps.enumFrom n).map fun ip =>
        if ip.2.nextRunMilliseconds ≤ clk ip.1 then
          { ip.2 with nextRunMilliseconds := clk ip.1 + ip.2.periodMilliseconds }
        else ip.2 := by
  induction ps generalizing n with
  | nil => rfl
  | cons p rest ih =>
    simp only [threadkernel_runFrom, List.enumFrom_cons, List.map_cons]
    by_cases hp : p.nextRunMilliseconds ≤ clk n <;> simp [hp, ih]

end Lemmas

/-- Claim C1: starting from `COMPRESSOR_OFF`, one control step engages the
compressor only when the OFF-mode evaporator safety check holds and the
outlet temperature is at or above the on-threshold computed for the active
cooling tier; in particular no step with `isEvaporatorInSafeTempRange`
false ever switches the compressor from OFF to ON. -/
theorem c1_compressor_engages_only_when_safe (st : AcState) (cs : CompressorState)
    (t : Temps) (cmd : AcCmd) (e : ℤ)
    (hcs : cs = .off) (hon : (processCommand st cs t cmd e).2 = .on) :
    isEvaporatorInSafeTempRange .off t = true ∧
    ((cmd = .cmdCoolHigh ∧ st = .coolHigh ∧ t.outlet ≥ coolHighOnThreshold t) ∨
     (cmd = .cmdCoolMed ∧ st = .coolMed ∧ t.outlet ≥ coolMedOnThreshold t) ∨
     (cmd = .cmdCoolLow ∧ st = .coolLow ∧ t.outlet ≥ coolLowOnThreshold t)) := by
  subst hcs
  cases cmd <;> cases st <;>
    simp only [processCommand, changeStateCompressor] at hon <;>
    (try split_ifs at hon) <;>
    simp_all [controlCompressorState]

/-- Witness for C1: in `COOL_HIGH` under `CMD_COOL_HIGH` with evap 20 °C and
outlet 18 °C the compressor does engage, and the safety and threshold
conditions hold there. -/
theorem c1_compressor_engages_only_when_safe_witness :
    isEvaporatorInSafeTempRange .off ⟨20, 18⟩ = true ∧
    ((AcCmd.cmdCoolHigh = .cmdCoolHigh ∧ AcState.coolHigh = .coolHigh ∧
      (18 : ℚ) ≥ coolHighOnThreshold ⟨20, 18⟩) ∨
     (AcCmd.cmdCoolHigh = .cmdCoolMed ∧ AcState.coolHigh = .coolMed ∧
      (18 : ℚ) ≥ coolMedOnThreshold ⟨20, 18⟩) ∨
     (AcCmd.cmdCoolHigh = .cmdCoolLow ∧ AcState.coolHigh = .coolLow ∧
      (18 : ℚ) ≥ coolLowOnThreshold ⟨20, 18⟩)) :=
  c1_compressor_engages_only_when_safe .coolHigh .off ⟨20, 18⟩ .cmdCoolHigh 0 rfl
    (by norm_num [processCommand, controlCompressorState, isEvaporatorInSafeTempRange,
      coolHighOnThreshold, calculateOnTemp])

/-- Claim C2: under a continuously applied `CMD_OFF` the state machine steps
`STANDBY_HIGH → STANDBY_MED → STANDBY_LOW → POWER_OFF` one tier at a time and
never reverses: each standby tier moves to the next lower tier exactly when
the elapsed time since the last state change exceeds its own interval and
stays put otherwise, `POWER_OFF` is absorbing, and the three intervals are
strictly increasing (1, 5, 15 minutes). -/
theorem c2_standby_decay_one_tier_at_a_time (cs : CompressorState) (t : Temps) (e : ℤ) :
    (processCommand .standbyHigh cs t .cmdOff e).1 =
      (if e > 60000 then .standbyMed else .standbyHigh) ∧
    (processCommand .standbyMed cs t .cmdOff e).1 =
      (if e > 300000 then .standbyLow else .standbyMed) ∧
    (processCommand .standbyLow cs t .cmdOff e).1 =
      (if e > 900000 then .powerOff else .standbyLow) ∧
    (processCommand .powerOff cs t .cmdOff e).1 = .powerOff ∧
    (60000 : ℤ) < 300000 ∧ (300000 : ℤ) < 900000 := by
  refine ⟨?_, ?_, ?_, ?_, by norm_num, by norm_num⟩ <;>
    simp only [processCommand] <;> split_ifs <;> simp_all

/-- Counterexample to C3 as stated: with the compressor ON, evap 20 °C
(above its threshold) and outlet 0 °C (below its threshold), only ONE channel
is bad, so the claim's "true unless both channels are invalid or below
threshold" predicts `true`; the code returns `false`. -/
theorem c3_safety_check_counterexample :
    isEvaporatorInSafeTempRange .on ⟨20, 0⟩ = false ∧
    isEvaporatorSafeSpecClaim .on ⟨20, 0⟩ = true ∧
    (20 : ℚ) > evapSafetyThreshold .on := by
  norm_num [isEvaporatorInSafeTempRange, isEvaporatorSafeSpecClaim,
    evapSafetyThreshold, outletSafetyThreshold]

/-- Claim C3 amended: `isEvaporatorInSafeTempRange` returns true exactly when
EACH monitored channel is strictly above its mode-specific minimum threshold
(so either channel being invalid or at/below threshold makes it false), and
the thresholds used with the compressor ON are strictly lower than those used
with it OFF. -/
theorem c3_safety_check_conjunctive_thresholds (cs : CompressorState) (t : Temps) :
    isEvaporatorInSafeTempRange cs t =
      (decide (t.evap > evapSafetyThreshold cs) && decide (t.outlet > outletSafetyThreshold cs)) ∧
    evapSafetyThreshold .on < evapSafetyThreshold .off ∧
    outletSafetyThreshold .on < outletSafetyThreshold .off := by
  refine ⟨?_, by norm_num [evapSafetyThreshold], by norm_num [outletSafetyThreshold]⟩
  cases cs <;> rfl

/-- Counterexample to C4 as stated: with the `CMD_COOL_HIGH` call-site
parameters (off 1.5, on 6, min range 5, min delta 5, max delta 8) and evap
20 °C, the claim's own hypothesis `evap ≥ off + min_range + min_delta`
(20 ≥ 11.5) holds, yet `calculateOnTemp` returns 12, which is not `≤ on_temp = 6`. -/
theorem c4_on_threshold_counterexample :
    (20 : ℚ) ≥ 3/2 + 5 + 5 ∧
    calculateOnTemp 20 (3/2) 6 5 5 8 = 12 ∧
    ¬(calculateOnTemp 20 (3/2) 6 5 5 8 ≤ 6) := by
  norm_num [calculateOnTemp]

/-- Claim C4 amended: the result of `calculateOnTemp` is always at least
`off_temp + min_range` (hence at least `off_temp` whenever `min_range ≥ 0`),
and is at most `on_temp` provided the evaporator temperature does not exceed
`on_temp + max_evap_delta` and `off_temp + min_range ≤ on_temp`; without
those two provisos the lower clamp can exceed `on_temp`, as the
counterexample shows. -/
theorem c4_on_threshold_window (evapTempC stateOffTempC stateOnTempC minRangeC minEvapDeltaC
    maxEvapDeltaC : ℚ) :
    stateOffTempC + minRangeC ≤
      calculateOnTemp evapTempC stateOffTempC stateOnTempC minRangeC minEvapDeltaC maxEvapDeltaC ∧
    (0 ≤ minRangeC →
      stateOffTempC ≤
        calculateOnTemp evapTempC stateOffTempC stateOnTempC minRangeC minEvapDeltaC
          maxEvapDeltaC) ∧
    (evapTempC ≤ stateOnTempC + maxEvapDeltaC →
      stateOffTempC + minRangeC ≤ stateOnTempC →
      calculateOnTemp evapTempC stateOffTempC stateOnTempC minRangeC minEvapDeltaC maxEvapDeltaC ≤
        stateOnTempC) := by
  have hmin : stateOffTempC + minRangeC ≤
      max (evapTempC - maxEvapDeltaC) (stateOffTempC + minRangeC) := le_max_right _ _
  have hmax1 : min (evapTempC - minEvapDeltaC) stateOnTempC ≤ stateOnTempC := min_le_right _ _
  unfold calculateOnTemp
  dsimp only
  split_ifs with h
  · exact ⟨le_of_lt (lt_of_le_of_lt hmin h),
      fun hR => by linarith [lt_of_le_of_lt hmin h],
      fun hcap hord => hmax1⟩
  · exact ⟨hmin, fun hR => by linarith,
      fun hcap hord => max_le (by linarith) hord⟩

/-- Witness for the amended C4 at the `CMD_COOL_MED` call-site parameters
(off 5, on 12, min range 5, min delta 2, max delta 7) with evap 11 °C,
discharging each proviso there. -/
theorem c4_on_threshold_window_witness :
    (5 : ℚ) + 5 ≤ calculateOnTemp 11 5 12 5 2 7 ∧
    (5 : ℚ) ≤ calculateOnTemp 11 5 12 5 2 7 ∧
    calculateOnTemp 11 5 12 5 2 7 ≤ 12 :=
  ⟨(c4_on_threshold_window 11 5 12 5 2 7).1,
   (c4_on_threshold_window 11 5 12 5 2 7).2.1 (by norm_num),
   (c4_on_threshold_window 11 5 12 5 2 7).2.2 (by norm_num) (by norm_num)⟩

/-- Counterexample to C5 as stated: the unrecognized command character `X`
does not leave the stored command unchanged — with `CMD_COOL_HIGH` stored,
the handler overwrites it with `CMD_OFF` (the `default` branch). -/
theorem c5_unrecognized_counterexample :
    handleCmdChar 'X' .cmdCoolHigh = .cmdOff ∧
    'X' ∉ recognizedCmdChars ∧
    AcCmd.cmdOff ≠ AcCmd.cmdCoolHigh := by decide

/-- Claim C5 amended: for every single-character command input outside the
recognized codes, the ingress handler stores `CMD_OFF`, whatever command was
stored before (the `default` branch assigns, it does not reject). -/
theorem c5_unrecognized_sets_cmd_off (c : Char) (cur : AcCmd)
    (h : c ∉ recognizedCmdChars) :
    handleCmdChar c cur = .cmdOff := by
  simp [recognizedCmdChars] at h
  unfold handleCmdChar
  split <;> simp_all

/-- Witness for the amended C5 at input character `Q` with `CMD_KILL` stored. -/
theorem c5_unrecognized_sets_cmd_off_witness :
    handleCmdChar 'Q' .cmdKill = .cmdOff :=
  c5_unrecognized_sets_cmd_off 'Q' .cmdKill (by decide)

/-- Counterexample to C6 as stated: a pass in which BOTH sensors reject
(each pair of samples 10 °C apart) leaves both exposed channels unchanged but
advances the error counter by two, not by "exactly one", even though each
single channel satisfies the claim's hypothesis. -/
theorem c6_double_rejection_counterexample :
    acceptSample ⟨61, 0, 10⟩ = false ∧ acceptSample ⟨20, 0, 10⟩ = false ∧
    readTemperaturesPass [⟨61, 0, 10⟩, ⟨20, 0, 10⟩] ⟨25, 25⟩ 0 = (⟨25, 25⟩, 2) ∧
    (2 : ℕ) ≠ 0 + 1 := by
  norm_num [readTemperaturesPass, readTempsLoop, acceptSample, isTempCValid, INVALID_TEMP]

/-- Claim C6 amended: when every sensor of a channel's address rejects in a
read pass, the channel's exposed value is unchanged after the pass, and the
error counter grows by exactly the number of rejected sensors in the pass —
exactly one when that channel's sensor is the only rejection. -/
theorem c6_rejected_channel_stale_and_counted (samples : List SensorSample) (temps : Temps)
    (tempErrors : ℕ) (ch : Fin 2)
    (hrej : ∀ s ∈ samples, s.addr = chAddr ch → acceptSample s = false) :
    chTemp (readTemperaturesPass samples temps tempErrors).1 ch = chTemp temps ch ∧
    (readTemperaturesPass samples temps tempErrors).2 =
      tempErrors + (samples.filter fun s => !acceptSample s).length := by
  have hkey : (readTempsLoop samples (fun _ => INVALID_TEMP, tempErrors)).1 (chAddr ch)
      = INVALID_TEMP := by
    refine readTempsLoop_fst_apply samples _ (chAddr ch) (fun s hs hacc haddr => ?_)
    rw [hrej s hs haddr] at hacc
    exact Bool.false_ne_true hacc
  refine ⟨?_, readTempsLoop_snd samples _⟩
  fin_cases ch <;>
    simp only [chAddr, chTemp, readTemperaturesPass] at hkey ⊢ <;>
    simp_all

/-- Witness for the amended C6: a pass whose only sensor is the evaporator's
and rejects leaves the evaporator channel at 25 °C and counts one error. -/
theorem c6_rejected_channel_stale_and_counted_witness :
    chTemp (readTemperaturesPass [⟨61, 0, 10⟩] ⟨25, 25⟩ 0).1 0 = chTemp ⟨25, 25⟩ 0 ∧
    (readTemperaturesPass [⟨61, 0, 10⟩] ⟨25, 25⟩ 0).2 =
      0 + (([⟨61, 0, 10⟩] : List SensorSample).filter fun s => !acceptSample s).length :=
  c6_rejected_channel_stale_and_counted [⟨61, 0, 10⟩] ⟨25, 25⟩ 0 0
    (by
      intro s hs haddr
      simp only [List.mem_singleton] at hs
      subst hs
      norm_num [acceptSample, isTempCValid, INVALID_TEMP])

/-- Claim C7: one `run` call of the scheduler executes exactly the registered
tasks whose next-eligible-run time is at most the clock sample taken at their
iteration, in registration (FIFO append, as `add` shows) order, each
registered entry at most once (the executed entries come from distinct list
positions), and re-arms each executed task to its iteration's clock sample
plus its period — so a period of 0 re-arms to the sample itself, leaving the
task eligible at every subsequent tick of a monotone clock. -/
theorem c7_scheduler_run_characterization (clk : ℕ → ℕ) (ps : List Process)
    (pid periodMilliseconds : ℕ) :
    (threadkernel_run clk ps).2 =
      ((ps.enum.filter fun ip => decide (ip.2.nextRunMilliseconds ≤ clk ip.1)).map
        fun ip => ip.2.pid) ∧
    (threadkernel_run clk ps).1 =
      (ps.enum.map fun ip =>
        if ip.2.nextRunMilliseconds ≤ clk ip.1 then
          { ip.2 with nextRunMilliseconds := clk ip.1 + ip.2.periodMilliseconds }
        else ip.2) ∧
    threadkernel_add ps pid periodMilliseconds = ps ++ [⟨periodMilliseconds, 0, pid⟩] ∧
    ((ps.enum.filter fun ip => decide (ip.2.nextRunMilliseconds ≤ clk ip.1)).map
        fun ip => ip.1).Nodup := by
  refine ⟨?_, ?_, rfl, ?_⟩
  · rw [threadkernel_run, threadkernel_runFrom_snd]
    rfl
  · rw [threadkernel_run, threadkernel_runFrom_fst]
    rfl
  · have hsub : ((ps.enum.filter fun ip => decide (ip.2.nextRunMilliseconds ≤ clk ip.1)).map
        fun ip => ip.1).Sublist (ps.enum.map fun ip => ip.1) :=
      (List.filter_sublist _).map _
    have henum : (ps.enum.map fun ip => ip.1) = List.range ps.length := List.enum_map_fst ps
    exact List.Nodup.sublist hsub (henum ▸ List.nodup_range _)

/-- Claim C8: one invocation of `processCommand` under `CMD_KILL` maps each
COOL tier to its matching STANDBY tier and every other state to `POWER_OFF`,
independently of the elapsed time and of the temperatures, and the result is
always a STANDBY tier or `POWER_OFF`. -/
theorem c8_kill_immediate (st : AcState) (cs : CompressorState) (t : Temps) (e : ℤ) :
    (processCommand st cs t .cmdKill e).1 =
      (match st with
       | .coolHigh => .standbyHigh
       | .coolMed  => .standbyMed
       | .coolLow  => .standbyLow
       | _ => .powerOff) ∧
    ((processCommand st cs t .cmdKill e).1 = .standbyHigh ∨
     (processCommand st cs t .cmdKill e).1 = .standbyMed ∨
     (processCommand st cs t .cmdKill e).1 = .standbyLow ∨
     (processCommand st cs t .cmdKill e).1 = .powerOff) := by
  cases st <;> simp [processCommand]

/-- Claim C9: when a failed probe takes the consecutive-failure count to the
threshold of 5, `task_testPing` requests a restart, increments
`numRebootsPingFailed` by exactly one and advances `timeBaseMs` by the time
elapsed since the current boot; a successful probe resets the
consecutive-failure count to zero. -/
theorem c9_ping_failure_restart (s : PingState) (nowMs : ℕ)
    (h : s.consecutiveFailedPings + 1 ≥ 5) :
    (task_testPing false nowMs s).rebootRequested = true ∧
    (task_testPing false nowMs s).numRebootsPingFailed = s.numRebootsPingFailed + 1 ∧
    (task_testPing false nowMs s).timeBaseMs = s.timeBaseMs + nowMs ∧
    (task_testPing true nowMs s).consecutiveFailedPings = 0 := by
  simp [task_testPing, reboot, h]

/-- Witness for C9: four prior failures, a fifth failed probe at uptime
123 ms requests the restart, bumps the counter from 7 to 8 and advances the
base from 100 to 223. -/
theorem c9_ping_failure_restart_witness :
    (task_testPing false 123 ⟨4, 7, 100, false⟩).rebootRequested = true ∧
    (task_testPing false 123 ⟨4, 7, 100, false⟩).numRebootsPingFailed = 7 + 1 ∧
    (task_testPing false 123 ⟨4, 7, 100, false⟩).timeBaseMs = 100 + 123 ∧
    (task_testPing true 123 ⟨4, 7, 100, false⟩).consecutiveFailedPings = 0 :=
  c9_ping_failure_restart ⟨4, 7, 100, false⟩ 123 (by decide)

/-- Claim C10: the stored command sits in the reset-surviving section and the
`setup()` guard writes it only on first initialization: with the first-boot
flag clear the guard leaves the whole persisted state — the command included —
exactly as it was before the restart; with the flag set it stores `CMD_OFF`,
zeroes the counters and the time base, stamps `powerUpTime` and clears the
flag. -/
theorem c10_persistent_command_guard (s : PersistentState) (nowMs : ℤ) :
    (s.initFlag = 0 → setupInitGuard nowMs s = s) ∧
    (s.initFlag ≠ 0 →
      (setupInitGuard nowMs s).command = .cmdOff ∧
      (setupInitGuard nowMs s).initFlag = 0 ∧
      (setupInitGuard nowMs s).timeBaseMs = 0 ∧
      (setupInitGuard nowMs s).powerUpTime = nowMs ∧
      (setupInitGuard nowMs s).tempErrors = 0 ∧
      (setupInitGuard nowMs s).numRebootsPingFailed = 0 ∧
      (setupInitGuard nowMs s).numRebootsDisconnected = 0) := by
  constructor <;> intro h <;> simp [setupInitGuard, h]

/-- Witness for C10: a soft restart (flag 0) keeps a stored `CMD_COOL_LOW`
and every counter; a first boot (flag 1) stores `CMD_OFF`. -/
theorem c10_persistent_command_guard_witness :
    setupInitGuard 5 ⟨0, 7, 3, 9, 2, 4, .cmdCoolLow⟩ = ⟨0, 7, 3, 9, 2, 4, .cmdCoolLow⟩ ∧
    (setupInitGuard 5 ⟨1, 7, 3, 9, 2, 4, .cmdCoolLow⟩).command = .cmdOff :=
  ⟨(c10_persistent_command_guard ⟨0, 7, 3, 9, 2, 4, .cmdCoolLow⟩ 5).1 rfl,
   ((c10_persistent_command_guard ⟨1, 7, 3, 9, 2, 4, .cmdCoolLow⟩ 5).2 (by decide)).1⟩

end SimplicityAC
